import Mathlib

/-!
Verification development for the docx-formatter core of the Distill repository
(`myapp/processor/`): rules model (`rules.py`), snapshot comparison
(`audit_export.py`), selector/action dispatch (`ops.py`), pipeline
orchestration (`pipeline.py`), recipe registry discovery (`ops.py`), and the
`lists_dot_to_emdash` Word recipe.

The embedding is shallow: Python dicts with fixed key sets become structures
with `Option` fields for optional keys, exceptions become `Except` results,
engine objects become a structure of functions (`EngineModel`) mirroring the
abstract `Engine` interface of `engines.py`, and document mutation is made
explicit by threading a document value through every engine call.
-/

set_option maxRecDepth 4096

/-! ## Rules model (`rules.py`) -/

/-- `Safety` dataclass from `rules.py`: four boolean safety flags. -/
structure Safety where
  require_same_paragraph_count : Bool
  require_same_bookmark_count : Bool
  require_same_inline_shape_count : Bool
  allow_text_changes : Bool
deriving DecidableEq

/-- A Python dict whose contents are never inspected by the code under
verification (paragraph-format configs, page-setup configs, ...): an
association list of key/value strings. -/
abbrev PyDict := List (String × String)

/-- `by_regex` selector configuration (`pattern`, `scope`, `flags`,
`page_range` keys), with dict-lookup defaults already resolved as in
`_resolve_selector`. -/
structure RegexSel where
  pattern : String
  scope : String
  flags : List String
  pageRange : Option String
deriving DecidableEq

/-- `by_table` selector configuration (`index`/`style`/`contains_text`). -/
structure TableSel where
  tableIndex : Option Int
  style : Option String
  containsText : Option String
deriving DecidableEq

/-- `by_range` selector configuration (`section`/`paragraph_indexes`/`pages`). -/
structure RangeSel where
  sectionSel : Option String
  paragraphIndexes : Option (List Int)
  pages : Option String
deriving DecidableEq

/-- The selector dict of a step (`step.select`): one optional field per
recognized key checked by `_resolve_selector` in `ops.py` (`none` = key
absent), plus the list of any unrecognized keys the dict carries, so that a
dict with only a typo key is representable. -/
structure SelectorDict where
  document : Option Bool
  by_style : Option (List String)
  by_regex : Option RegexSel
  by_bookmark : Option (List String)
  by_content_control : Option (List String)
  by_table : Option TableSel
  by_range : Option RangeSel
  otherKeys : List String
deriving DecidableEq

/-- `find_replace` action config, defaults from `config.get` resolved;
`allowTextChange` models the optional `allow_text_change` override key. -/
structure FindReplaceCfg where
  find : String
  replace : String
  regex : Bool
  wildcards : Bool
  wholeWord : Bool
  matchCase : Bool
  allowTextChange : Option Bool
deriving DecidableEq

/-- `bookmark_text` action config (`name`, `replace_text`, optional
`allow_text_change` override). -/
structure BookmarkTextCfg where
  name : String
  replaceText : String
  allowTextChange : Option Bool
deriving DecidableEq

/-- `content_control_text` action config (`title_or_tag`, `replace_text`,
optional `allow_text_change` override). -/
structure ContentControlTextCfg where
  titleOrTag : String
  replaceText : String
  allowTextChange : Option Bool
deriving DecidableEq

/-- `word_recipe` action config: `(config or {}).get("name")`,
`.get("enabled", True)`, `.get("params", {})` in `_apply_action`. -/
structure WordRecipeCfg where
  name : Option String
  enabled : Option Bool
  params : PyDict
deriving DecidableEq

/-- An action dict with exactly one key (`rules.py` validates this shape):
one constructor per action type recognized by `_apply_action`, plus
`unknown` for a dict whose single key is not a recognized action type. -/
inductive RuleAction where
  | paragraph_format (cfg : PyDict)
  | style_apply (styleName : String)
  | numbering (cfg : PyDict)
  | headers_footers (cfg : PyDict)
  | field_update (updateAllFields updateToc : Bool)
  | find_replace (cfg : FindReplaceCfg)
  | page_setup (cfg : PyDict)
  | section_breaks (insertBeforeSelector : Bool) (breakType : String)
  | bookmark_text (cfg : BookmarkTextCfg)
  | content_control_text (cfg : ContentControlTextCfg)
  | table_format (cfg : PyDict)
  | insert_image (cfg : PyDict)
  | raw_word_com (commands : List PyDict)
  | word_recipe (cfg : WordRecipeCfg)
  | unknown (actionType : String)
deriving DecidableEq

/-- The single key of the action dict (`action_type` in
`_apply_single_step`). -/
def RuleAction.typeName : RuleAction → String
  | .paragraph_format _ => "paragraph_format"
  | .style_apply _ => "style_apply"
  | .numbering _ => "numbering"
  | .headers_footers _ => "headers_footers"
  | .field_update _ _ => "field_update"
  | .find_replace _ => "find_replace"
  | .page_setup _ => "page_setup"
  | .section_breaks _ _ => "section_breaks"
  | .bookmark_text _ => "bookmark_text"
  | .content_control_text _ => "content_control_text"
  | .table_format _ => "table_format"
  | .insert_image _ => "insert_image"
  | .raw_word_com _ => "raw_word_com"
  | .word_recipe _ => "word_recipe"
  | .unknown t => t

/-- `config.get("allow_text_change")` on the action's own config dict:
present only for the three text-changing action configs. -/
def RuleAction.allowTextChangeKey : RuleAction → Option Bool
  | .find_replace c => c.allowTextChange
  | .bookmark_text c => c.allowTextChange
  | .content_control_text c => c.allowTextChange
  | _ => none

/-- The action types recognized by `_apply_action` in `ops.py`. -/
def recognizedActionTypes : List String :=
  ["paragraph_format", "style_apply", "numbering", "headers_footers",
   "field_update", "find_replace", "page_setup", "section_breaks",
   "bookmark_text", "content_control_text", "table_format", "insert_image",
   "raw_word_com", "word_recipe"]

/-- `Step` dataclass from `rules.py`: name, selector dict, action list. -/
structure Step where
  name : String
  select : SelectorDict
  actions : List RuleAction
deriving DecidableEq

/-! ## Snapshot and comparison (`audit_export.py`) -/

/-- `Snapshot` dataclass: six structural document metrics. -/
structure Snapshot where
  paragraph_count : Int
  bookmark_count : Int
  inline_shape_count : Int
  content_control_count : Int
  tables_count : Int
  headings_by_level : List (String × Int)
deriving DecidableEq

/-- Warning string built by `compare` for a paragraph-count change. -/
def paragraphWarning (pre post : Snapshot) : String :=
  "Paragraph count changed: " ++ toString pre.paragraph_count ++ " -> "
    ++ toString post.paragraph_count

/-- Warning string built by `compare` for a bookmark-count change. -/
def bookmarkWarning (pre post : Snapshot) : String :=
  "Bookmark count changed: " ++ toString pre.bookmark_count ++ " -> "
    ++ toString post.bookmark_count

/-- Warning string built by `compare` for an inline-shape-count change. -/
def inlineShapeWarning (pre post : Snapshot) : String :=
  "Inline shape count changed: " ++ toString pre.inline_shape_count ++ " -> "
    ++ toString post.inline_shape_count

/-- `compare(pre, post, safety)` from `audit_export.py`: appends one warning
per required invariant whose count differs; a pure, total function (the
Python body performs no raising operation). -/
def compareSnapshots (pre post : Snapshot) (safety : Safety) : List String :=
  (if safety.require_same_paragraph_count
      && pre.paragraph_count != post.paragraph_count
   then [paragraphWarning pre post] else [])
  ++ (if safety.require_same_bookmark_count
        && pre.bookmark_count != post.bookmark_count
      then [bookmarkWarning pre post] else [])
  ++ (if safety.require_same_inline_shape_count
        && pre.inline_shape_count != post.inline_shape_count
      then [inlineShapeWarning pre post] else [])

/-! ## Engine abstraction (`engines.py`)

The `Engine` ABC becomes a structure of functions over an abstract document
type `δ` and range type `ρ`.  Document mutation, hidden inside COM objects in
the source, is made explicit: every mutating method returns the new document.
`isWordCom` records whether the instance is the `WordComEngine`
(`isinstance(engine, WordComEngine)` in `_apply_action`). -/

/-- Result dict returned by a Word recipe callable, as read back by
`_apply_action`: the `ok` flag and the optional `items_touched` entry. -/
structure RecipeResult where
  ok : Bool
  items_touched : Option Int
deriving DecidableEq

/-- A recipe callable: takes the document and the `params` mapping, returns
the mutated document and a result record. -/
abbrev RecipeFn (δ : Type) := δ → PyDict → δ × RecipeResult

/-- Shallow model of an `Engine` instance (`engines.py`).  Selector methods
return range lists; action methods return the mutated document (and a count
where the source method returns one). -/
structure EngineModel (δ ρ : Type) where
  isWordCom : Bool
  contentOf : δ → ρ
  selectByStyle : δ → List String → List ρ
  selectByRegex : δ → RegexSel → List ρ
  selectByBookmark : δ → List String → List ρ
  selectByContentControl : δ → List String → List ρ
  selectByTable : δ → TableSel → List ρ
  selectByRange : δ → RangeSel → List ρ
  applyParagraphFormat : δ → List ρ → PyDict → δ × Int
  applyStyle : δ → List ρ → String → δ × Int
  applyNumbering : δ → List ρ → PyDict → δ × Int
  setHeadersFooters : δ → PyDict → δ
  updateFieldsAndToc : δ → Bool → Bool → δ
  findReplace : δ → FindReplaceCfg → δ × Int
  applyPageSetup : δ → PyDict → δ
  insertSectionBreak : δ → Bool → String → δ
  replaceBookmarkText : δ → String → String → δ
  replaceContentControlText : δ → String → String → δ
  formatTable : δ → PyDict → δ
  insertImage : δ → PyDict → δ
  rawWordCom : δ → List PyDict → δ

/-- The `count = 0; for rng in ranges: <mutate>; count += 1` loop shared by
`WordComEngine.apply_paragraph_format` / `apply_style` / `apply_numbering`:
the per-range COM mutation is the parameter `f`, the returned count is one
per range. -/
def comRangeFold {δ ρ : Type} (f : δ → ρ → δ) (d : δ) (rs : List ρ) : δ × Int :=
  rs.foldl (fun acc r => (f acc.1 r, acc.2 + 1)) (d, 0)

/-! ## Operations (`ops.py`) -/

/-- Exceptions raised inside `_apply_action`. -/
inductive ActionErr where
  | textChangeDisallowed (actionType : String)
  | recipeNeedsWordCom (recipeName : String)
  | unknownRecipe (recipeName : String) (available : List String)
  | unknownAction (actionType : String)
deriving DecidableEq

/-- Rendering of an optional Python value in an f-string (`None` when the
key is missing). -/
def renderOpt : Option String → String
  | some s => s
  | none => "None"

/-- Rendering of the available-recipe list in the `Unknown word_recipe`
message (`list(RECIPE_REGISTRY)`). -/
def renderAvailable (names : List String) : String :=
  "[" ++ String.intercalate ", " names ++ "]"

/-- The `str()` of each `_apply_action` exception, as built by the source
f-strings. -/
def ActionErr.message : ActionErr → String
  | .textChangeDisallowed t =>
      "Action \x27" ++ t ++ "\x27 requires text changes but allow_text_changes=False."
  | .recipeNeedsWordCom n =>
      "word_recipe \x27" ++ n ++ "\x27 requires the WordComEngine"
  | .unknownRecipe n avail =>
      "Unknown word_recipe: " ++ n ++ ". Available: " ++ renderAvailable avail
  | .unknownAction t => "Unknown action type: " ++ t

/-- `dict.get` on an association list (later `dictInsert` keeps keys
unique, mirroring a Python dict). -/
def dictGet {ν : Type} (d : List (String × ν)) (k : String) : Option ν :=
  match d.find? (fun p => p.1 == k) with
  | some p => some p.2
  | none => none

/-- `d[k] = v` on a Python dict: overwrite in place if the key exists
(keeping its position, as Python dicts do), else append. -/
def dictInsert {ν : Type} (d : List (String × ν)) (k : String) (v : ν) :
    List (String × ν) :=
  if d.any (fun p => p.1 == k) then
    d.map (fun p => if p.1 == k then (k, v) else p)
  else d ++ [(k, v)]

/-- `_resolve_selector` from `ops.py`: checks the recognized keys in source
order, raises `ValueError` when none is present.  The error message models
`f"Unknown selector type: {selector}"`. -/
def resolveSelector {δ ρ : Type} (eng : EngineModel δ ρ) (doc : δ)
    (sel : SelectorDict) : Except String (List ρ) :=
  if sel.document = some true then .ok [eng.contentOf doc]
  else match sel.by_style with
  | some styles => .ok (eng.selectByStyle doc styles)
  | none => match sel.by_regex with
  | some cfg => .ok (eng.selectByRegex doc cfg)
  | none => match sel.by_bookmark with
  | some names => .ok (eng.selectByBookmark doc names)
  | none => match sel.by_content_control with
  | some titles => .ok (eng.selectByContentControl doc titles)
  | none => match sel.by_table with
  | some cfg => .ok (eng.selectByTable doc cfg)
  | none => match sel.by_range with
  | some cfg => .ok (eng.selectByRange doc cfg)
  | none => .error ("Unknown selector type: "
      ++ "\x7b" ++ String.intercalate ", " sel.otherKeys ++ "\x7d")

/-- The `text_changing_actions` set of `_apply_action`. -/
def textChangingActions : List String :=
  ["find_replace", "bookmark_text", "content_control_text"]

/-- `mods` computed from a recipe result in `_apply_action`:
`1 if result.get("ok") else 0`, overridden by `int(result["items_touched"])`
when that key is present. -/
def recipeMods (r : RecipeResult) : Int :=
  match r.items_touched with
  | some k => k
  | none => if r.ok then 1 else 0

/-- The action dispatch of `_apply_action` (everything after the text-change
gate): one branch per recognized action type, `ValueError` for an unknown
one.  `registry` models the module-level `RECIPE_REGISTRY` dict. -/
def dispatchAction {δ ρ : Type} (eng : EngineModel δ ρ)
    (registry : List (String × RecipeFn δ)) (doc : δ) (ranges : List ρ) :
    RuleAction → δ × Except ActionErr Int
  | .paragraph_format cfg =>
      let r := eng.applyParagraphFormat doc ranges cfg; (r.1, .ok r.2)
  | .style_apply n => let r := eng.applyStyle doc ranges n; (r.1, .ok r.2)
  | .numbering cfg => let r := eng.applyNumbering doc ranges cfg; (r.1, .ok r.2)
  | .headers_footers cfg => (eng.setHeadersFooters doc cfg, .ok 1)
  | .field_update ua ut => (eng.updateFieldsAndToc doc ua ut, .ok 1)
  | .find_replace cfg => let r := eng.findReplace doc cfg; (r.1, .ok r.2)
  | .page_setup cfg => (eng.applyPageSetup doc cfg, .ok 1)
  | .section_breaks b t => (eng.insertSectionBreak doc b t, .ok 1)
  | .bookmark_text cfg =>
      (eng.replaceBookmarkText doc cfg.name cfg.replaceText, .ok 1)
  | .content_control_text cfg =>
      (eng.replaceContentControlText doc cfg.titleOrTag cfg.replaceText, .ok 1)
  | .table_format cfg => (eng.formatTable doc cfg, .ok 1)
  | .insert_image cfg => (eng.insertImage doc cfg, .ok 1)
  | .raw_word_com cmds => (eng.rawWordCom doc cmds, .ok (Int.ofNat cmds.length))
  | .word_recipe cfg =>
      if !(cfg.enabled.getD true) then (doc, .ok 0)
      else if !eng.isWordCom then
        (doc, .error (.recipeNeedsWordCom (renderOpt cfg.name)))
      else
        match cfg.name.bind (dictGet registry) with
        | none =>
            (doc, .error (.unknownRecipe (renderOpt cfg.name)
              (registry.map Prod.fst)))
        | some fn =>
            let r := fn doc cfg.params
            (r.1, .ok (recipeMods r.2))
  | .unknown t => (doc, .error (.unknownAction t))

/-- `_apply_action` from `ops.py`: the text-change safety gate
(`config.get("allow_text_change", safety.allow_text_changes)`) followed by
the dispatch. -/
def applyAction {δ ρ : Type} (eng : EngineModel δ ρ)
    (registry : List (String × RecipeFn δ)) (doc : δ) (ranges : List ρ)
    (a : RuleAction) (safety : Safety) : δ × Except ActionErr Int :=
  if textChangingActions.contains a.typeName
      && !(a.allowTextChangeKey.getD safety.allow_text_changes) then
    (doc, .error (.textChangeDisallowed a.typeName))
  else dispatchAction eng registry doc ranges a

/-- The `ValueError(f"Action '{action_type}' failed: {e}")` wrapper of
`_apply_single_step`. -/
def wrapActionErr (t : String) (e : ActionErr) : String :=
  "Action \x27" ++ t ++ "\x27 failed: " ++ e.message

/-- The `RuntimeError(f"Step '{step.name}' failed: {e}")` wrapper of
`apply_steps`. -/
def wrapStepErr (stepName msg : String) : String :=
  "Step \x27" ++ stepName ++ "\x27 failed: " ++ msg

/-- The action loop of `_apply_single_step`: applies each action to the
resolved ranges, accumulating `modifications`; the first exception is
wrapped with the action type and aborts the loop. -/
def applyActionsLoop {δ ρ : Type} (eng : EngineModel δ ρ)
    (registry : List (String × RecipeFn δ)) (ranges : List ρ)
    (safety : Safety) : δ → List RuleAction → Int → δ × Except String Int
  | doc, [], acc => (doc, .ok acc)
  | doc, a :: rest, acc =>
      match applyAction eng registry doc ranges a safety with
      | (d, .ok n) => applyActionsLoop eng registry ranges safety d rest (acc + n)
      | (d, .error e) => (d, .error (wrapActionErr a.typeName e))

/-- `_apply_single_step` from `ops.py`: resolve the selector once, then run
every action of the step against the resolved ranges. -/
def applySingleStep {δ ρ : Type} (eng : EngineModel δ ρ)
    (registry : List (String × RecipeFn δ)) (doc : δ) (step : Step)
    (safety : Safety) : δ × Except String Int :=
  match resolveSelector eng doc step.select with
  | .error msg => (doc, .error msg)
  | .ok ranges => applyActionsLoop eng registry ranges safety doc step.actions 0

/-- Per-step summary entry recorded by `apply_steps`. -/
structure StepSummary where
  name : String
  modifications : Int
deriving DecidableEq

/-- The summary dict built by `apply_steps`. -/
structure StepsSummary where
  steps : List StepSummary
  total_modifications : Int
deriving DecidableEq

/-- The step loop of `apply_steps`: each step failure is wrapped with the
step's name and aborts the remaining steps. -/
def applyStepsLoop {δ ρ : Type} (eng : EngineModel δ ρ)
    (registry : List (String × RecipeFn δ)) (safety : Safety) :
    δ → List Step → StepsSummary → δ × Except String StepsSummary
  | doc, [], acc => (doc, .ok acc)
  | doc, s :: rest, acc =>
      match applySingleStep eng registry doc s safety with
      | (d, .ok m) =>
          applyStepsLoop eng registry safety d rest
            ⟨acc.steps ++ [⟨s.name, m⟩], acc.total_modifications + m⟩
      | (d, .error msg) => (d, .error (wrapStepErr s.name msg))

/-- `apply_steps` from `ops.py`. -/
def applySteps {δ ρ : Type} (eng : EngineModel δ ρ)
    (registry : List (String × RecipeFn δ)) (doc : δ) (steps : List Step)
    (safety : Safety) : δ × Except String StepsSummary :=
  applyStepsLoop eng registry safety doc steps ⟨[], 0⟩

/-! ## Recipe registry discovery (`discover_word_recipes` in `ops.py`) -/

/-- `name.startswith("_")` on a module name. -/
def startsWithUnderscore (s : String) : Bool :=
  match s.toList with
  | c :: _ => c = '_'
  | [] => false

/-- `name.endswith("_py")` on an attribute name. -/
def endsWithPy (s : String) : Bool :=
  match s.toList.reverse with
  | 'y' :: 'p' :: '_' :: _ => true
  | _ => false

/-- One attribute of an imported recipe module, as seen through
`dir(module)` / `getattr` / `callable`: its name and, when the value is
callable, the callable itself (over an abstract callable type `ν`). -/
structure PyAttr (ν : Type) where
  attrName : String
  callableVal : Option ν
deriving DecidableEq

/-- One module candidate found by `pkgutil.iter_modules` in the
`recipes_word` package: its name and the result of importing it (`none` when
the import raises). -/
structure PyModule (ν : Type) where
  modName : String
  importResult : Option (List (PyAttr ν))
deriving DecidableEq

/-- The inner attribute loop of `discover_word_recipes`: every attribute
whose name ends in `_py` and whose value is callable is registered under the
module name (`registry[recipe_name] = fn` with `recipe_name = mod_name`). -/
def registerModuleAttrs {ν : Type} (modName : String) (attrs : List (PyAttr ν))
    (reg : List (String × ν)) : List (String × ν) :=
  attrs.foldl (fun acc a =>
    if endsWithPy a.attrName then
      match a.callableVal with
      | some fn => dictInsert acc modName fn
      | none => acc
    else acc) reg

/-- `discover_word_recipes` from `ops.py` over a fixed module environment:
module names starting with an underscore are skipped, a module whose import
raises is logged and skipped, other modules register their `*_py` callables
into a registry that starts empty. -/
def discoverWordRecipes {ν : Type} (mods : List (PyModule ν)) :
    List (String × ν) :=
  mods.foldl (fun reg m =>
    if startsWithUnderscore m.modName then reg
    else
      match m.importResult with
      | none => reg
      | some attrs => registerModuleAttrs m.modName attrs reg) []

/-! ## Pipeline orchestrator (`pipeline.py`)

`run` is modeled over a profile of stage outcomes: one boolean per operation
inside `run` that can raise (each `true` = the call returns normally,
`false` = it raises).  `compare` is pure and cannot raise, so it carries no
flag.  `close_document` carries no flag either: the only engine whose
`open_document` can succeed is `WordComEngine`, and its `close_document`
catches and logs every exception (`engines.py`), so the close call in the
`finally` block returns normally; the pipeline additionally swallows
`shutdown` exceptions with its own `try/except: pass`. -/

/-- One outcome flag per fallible stage of `pipeline.run`. -/
structure StageOutcome where
  loadRulesOk : Bool
  pickEngineOk : Bool
  openOk : Bool
  snapshotPreOk : Bool
  applyStepsOk : Bool
  snapshotPostOk : Bool
  mkdirOk : Bool
  saveOk : Bool
  auditOk : Bool
deriving DecidableEq

/-- What a `run` invocation produced: the returned exit code, and whether
the `finally` block attempted `close_document` / `engine.shutdown`. -/
structure RunOutcome where
  code : Int
  closeAttempted : Bool
  shutdownAttempted : Bool
deriving DecidableEq

/-- The document was successfully opened: every stage up to and including
`engine.open_document` returned normally. -/
def docOpened (o : StageOutcome) : Bool :=
  o.loadRulesOk && o.pickEngineOk && o.openOk

/-- The body of the `try` block of `run` after a successful open, evaluated
to the exit code: the first raising stage is caught by `except Exception`
and yields 1, otherwise 0.  `applyStepsOk` is consulted only when not in
dry-run mode; `saveOk` only when not in dry-run mode; `auditOk` only when
`write_audit` is set. -/
def runBody (o : StageOutcome) (dryRun writeAudit : Bool) : Int :=
  if !o.snapshotPreOk then 1
  else if !dryRun && !o.applyStepsOk then 1
  else if !o.snapshotPostOk then 1
  else if !o.mkdirOk then 1
  else if !dryRun && !o.saveOk then 1
  else if writeAudit && !o.auditOk then 1
  else 0

/-- `pipeline.run` for a single file: rule loading and engine selection fail
before the `try/finally`, so no close or shutdown is attempted; an open
failure leaves `doc is None`, so the `finally` skips the close but still
attempts shutdown; past a successful open, the `finally` always attempts
both. -/
def pipelineRun (o : StageOutcome) (dryRun writeAudit : Bool) : RunOutcome :=
  if !o.loadRulesOk then ⟨1, false, false⟩
  else if !o.pickEngineOk then ⟨1, false, false⟩
  else if !o.openOk then ⟨1, false, true⟩
  else ⟨runBody o dryRun writeAudit, true, true⟩

/-- Spec-side predicate: some pipeline stage after the successful document
open raised (step application, snapshot, mkdir, save, or audit). -/
def laterStageFails (o : StageOutcome) (dryRun writeAudit : Bool) : Bool :=
  !o.snapshotPreOk || (!dryRun && !o.applyStepsOk) || !o.snapshotPostOk
    || !o.mkdirOk || (!dryRun && !o.saveOk) || (writeAudit && !o.auditOk)

/-! ## Batch mode (`run_batch` in `pipeline.py`) -/

/-- `any(ch in s for ch in ["*", "?", "["])`. -/
def hasGlobChar (s : String) : Bool :=
  s.toList.any (fun c => c = '*' || c = '?' || c = '[')

/-- The input-expansion loop of `run_batch`: glob-looking items are expanded
through the filesystem (modeled by `globFn`), other items are taken
literally. -/
def expandInputs (globFn : String → List String) (inputs : List String) :
    List String :=
  inputs.foldl
    (fun acc item =>
      if hasGlobChar item then acc ++ globFn item else acc ++ [item]) []

/-- The per-file loop of `run_batch`: runs every path (`runOf` models the
single-file `run` call), keeping the last non-zero exit code in `overall`.
The second component records, in order, every path a run was invoked on. -/
def runBatchLoop (runOf : String → Int) :
    List String → Int → Int × List String
  | [], overall => (overall, [])
  | p :: rest, overall =>
      let code := runOf p
      let r := runBatchLoop runOf rest (if code != 0 then code else overall)
      (r.1, p :: r.2)

/-- `run_batch` from `pipeline.py`: expand inputs, fail with exit code 1
when nothing matched, otherwise run every path and aggregate. -/
def runBatch (globFn : String → List String) (runOf : String → Int)
    (inputs : List String) : Int × List String :=
  let paths := expandInputs globFn inputs
  if paths.isEmpty then (1, [])
  else runBatchLoop runOf paths 0

/-- The exit code `run_batch` is specified to aggregate to: the last
non-zero per-file code, or 0 when every file succeeded. -/
def lastNonZero (codes : List Int) : Int :=
  match codes.reverse.find? (fun c => c != 0) with
  | some c => c
  | none => 0

/-! ## Word recipe `lists_dot_to_emdash` (`recipes_word/lists_dot_to_emdash.py`)

The recipe's text-level effect on each paragraph of the processed pages,
for paragraphs carrying no automatic list numbering (so that
`ConvertNumbersToText` is a no-op and only the wildcard find/replace
passes act).  Paragraph text is a `List Char`. -/

/-- Step 3a: wildcard find `([0-9]{1,}).` replaced once by `\1—`
(`wdReplaceOne`): the first maximal digit run immediately followed by a
literal dot has its dot turned into an em dash; `none` when no such
occurrence exists (`Find.Execute` returns false). -/
def replaceNumDotOnce : List Char → Option (List Char)
  | [] => none
  | [_] => none
  | c :: d :: ds =>
      if c.isDigit then
        if d = '.' then some (c :: '—' :: ds)
        else if d.isDigit then
          (replaceNumDotOnce (d :: ds)).map (fun t => c :: t)
        else (replaceNumDotOnce ds).map (fun t => c :: d :: t)
      else (replaceNumDotOnce (d :: ds)).map (fun t => c :: t)

/-- Step 3b: wildcard find `—([ ^t]{1,})` replaced once by `—`: the first
em dash followed by spaces/tabs has that whitespace run removed. -/
def removeSpaceAfterEmDashOnce : List Char → List Char
  | [] => []
  | c :: cs =>
      if c = '—' && (match cs with
          | x :: _ => x = ' ' || x = '\t'
          | [] => false) then
        c :: cs.dropWhile (fun x => x = ' ' || x = '\t')
      else c :: removeSpaceAfterEmDashOnce cs

/-- Python `str.strip()` on a character list. -/
def stripChars (s : List Char) : List Char :=
  ((s.dropWhile Char.isWhitespace).reverse.dropWhile Char.isWhitespace).reverse

/-- `re.match(r"^(\d+)\.\s*", para_start)` succeeds: a non-empty leading
digit run immediately followed by a dot. -/
def startsWithNumDot (s : List Char) : Bool :=
  !(s.takeWhile Char.isDigit).isEmpty
    && (match s.dropWhile Char.isDigit with
        | '.' :: _ => true
        | _ => false)

/-- The fallback wildcard find `^[ ]{0,}([0-9]{1,}).` replaced once by
`\1—`, anchored at the paragraph start: leading spaces are part of the
match (and so are dropped by the replacement), the digit run is kept, the
dot becomes an em dash. -/
def fallbackFind (s : List Char) : Option (List Char) :=
  let r1 := s.dropWhile (fun c => c = ' ')
  let ds := r1.takeWhile Char.isDigit
  if ds.isEmpty then none
  else
    match r1.dropWhile Char.isDigit with
    | '.' :: tail => some (ds ++ '—' :: tail)
    | _ => none

/-- Step 3 of the recipe for one paragraph: the main find/replace (3a),
the plain-text fallback when 3a found nothing and the first 20 stripped
characters start with digits-then-dot, then the space-after-em-dash
cleanup (3b, always attempted).  The boolean is whether `changed` was
incremented for this paragraph. -/
def processPara (text : List Char) : List Char × Bool :=
  match replaceNumDotOnce text with
  | some t1 => (removeSpaceAfterEmDashOnce t1, true)
  | none =>
      let paraStart := stripChars (text.take 20)
      let fallbackWanted :=
        !paraStart.isEmpty
          && (match paraStart with
              | x :: _ => x.isDigit
              | [] => false)
          && startsWithNumDot paraStart
      if fallbackWanted then
        match fallbackFind text with
        | some t1 => (removeSpaceAfterEmDashOnce t1, true)
        | none => (removeSpaceAfterEmDashOnce text, false)
      else (removeSpaceAfterEmDashOnce text, false)

/-- All paragraphs of one page, accumulating `changed`. -/
def processPage (paras : List (List Char)) : List (List Char) × Int :=
  paras.foldl
    (fun acc p =>
      let r := processPara p
      (acc.1 ++ [r.1], acc.2 + (if r.2 then 1 else 0)))
    ([], 0)

/-- The page loop (`for pg in range(page_start, page_end + 1)`): pages are
1-indexed; pages outside `[ps, pe]` are untouched. -/
def processPagesFrom (ps pe : Int) : Int → List (List (List Char)) →
    List (List (List Char)) × Int
  | _, [] => ([], 0)
  | i, pg :: rest =>
      let r := if ps ≤ i ∧ i ≤ pe then processPage pg else (pg, 0)
      let rr := processPagesFrom ps pe (i + 1) rest
      (r.1 :: rr.1, r.2 + rr.2)

/-- A Word document as the recipe sees it: paragraph texts grouped into
pages. -/
structure RecipeDoc where
  pages : List (List (List Char))
deriving DecidableEq

/-- The result dict of `lists_dot_to_emdash_py`: the `ok` flag and the
`count_updated` field (the final value of `changed`). -/
structure DotEmdashResult where
  ok : Bool
  count_updated : Int
deriving DecidableEq

/-- `lists_dot_to_emdash_py(doc, page_start, page_end)`: the effective end
page is `min(page_end, 4, total_pages)`; an empty clamped range returns
`ok: False`; otherwise every paragraph of the pages in range is processed
and `changed` is reported as `count_updated`. -/
def listsDotToEmdash (d : RecipeDoc) (pageStart pageEnd : Int) :
    RecipeDoc × DotEmdashResult :=
  let totalPages : Int := Int.ofNat d.pages.length
  let pe := min (min pageEnd 4) totalPages
  if pe < pageStart then (d, ⟨false, 0⟩)
  else
    let r := processPagesFrom pageStart pe 1 d.pages
    (⟨r.1⟩, ⟨true, r.2⟩)

/-! ## Concrete fixtures used by witnesses and counterexamples -/

/-- A minimal engine instance over trivial document/range types: no
bookmarks, styles or content controls exist (so the corresponding selectors
match nothing, as `WordComEngine` returns for a document without them), the
three range-scoped actions use the `WordComEngine` per-range loop, and
document-level actions return the document unchanged.  `wc` selects whether
it models the `WordComEngine` (`isinstance` check) or another engine. -/
def fixtureEngine (wc : Bool) : EngineModel Unit Unit where
  isWordCom := wc
  contentOf := fun _ => ()
  selectByStyle := fun _ _ => []
  selectByRegex := fun _ _ => []
  selectByBookmark := fun _ _ => []
  selectByContentControl := fun _ _ => []
  selectByTable := fun _ _ => []
  selectByRange := fun _ _ => []
  applyParagraphFormat := fun d rs _ => comRangeFold (fun d _ => d) d rs
  applyStyle := fun d rs _ => comRangeFold (fun d _ => d) d rs
  applyNumbering := fun d rs _ => comRangeFold (fun d _ => d) d rs
  setHeadersFooters := fun d _ => d
  updateFieldsAndToc := fun d _ _ => d
  findReplace := fun d _ => (d, 0)
  applyPageSetup := fun d _ => d
  insertSectionBreak := fun d _ _ => d
  replaceBookmarkText := fun d _ _ => d
  replaceContentControlText := fun d _ _ => d
  formatTable := fun d _ => d
  insertImage := fun d _ => d
  rawWordCom := fun d _ => d

/-- A one-recipe registry fixture. -/
def fixtureRegistry : List (String × RecipeFn Unit) :=
  [("lists_dot_to_emdash", fun d _ => (d, ⟨true, none⟩))]

/-- The default `Safety` of `rules.py` (all counts preserved, text changes
disallowed). -/
def fixtureSafety : Safety := ⟨true, true, true, false⟩

/-- A recognized selector that matches nothing: `by_bookmark` naming a
bookmark the document does not have. -/
def emptyBookmarkSel : SelectorDict :=
  ⟨none, none, none, some ["no_such_bookmark"], none, none, none, []⟩

/-- A selector dict whose only key is a typo (`by_stile`). -/
def typoSel : SelectorDict :=
  ⟨none, none, none, none, none, none, none, ["by_stile"]⟩

/-- The whole-document selector (`document: true`). -/
def wholeDocSel : SelectorDict :=
  ⟨some true, none, none, none, none, none, none, []⟩

/-- A step whose single action type is unrecognized. -/
def stepUnknownAction : Step :=
  ⟨"Bad step", wholeDocSel, [.unknown "frobnicate"]⟩

/-- A step with an empty-matching selector and one document-level action. -/
def stepHeadersEmptySel : Step :=
  ⟨"Empty select headers", emptyBookmarkSel, [.headers_footers []]⟩

/-- A step with an empty-matching selector and only range-scoped actions. -/
def stepRangeScopedEmptySel : Step :=
  ⟨"Empty select formatting", emptyBookmarkSel,
   [.paragraph_format [], .style_apply "Body Text", .numbering []]⟩

/-- The error message `apply_steps` surfaces for `stepUnknownAction`. -/
def stepUnknownActionMsg : String :=
  wrapStepErr "Bad step"
    (wrapActionErr "frobnicate" (ActionErr.unknownAction "frobnicate"))

/-- Batch fixture: the filesystem expands `*.docx` to two files. -/
def fixtureGlob : String → List String :=
  fun s => if s = "*.docx" then ["a.docx", "b.docx"] else []

/-- Batch fixture: the run on `a.docx` fails with 1, others succeed. -/
def fixtureRunOf : String → Int :=
  fun s => if s = "a.docx" then 1 else 0

/-- The three actions whose engine method loops over the resolved ranges
(`paragraph_format`, `style_apply`, `numbering` in `_apply_action`); every
other action type targets the document as a whole. -/
def RuleAction.isRangeScoped : RuleAction → Bool
  | .paragraph_format _ => true
  | .style_apply _ => true
  | .numbering _ => true
  | _ => false

/-- The engine's three range-scoped action methods follow the
`WordComEngine` loop shape, hence return the document unchanged with count
0 on an empty range list (`comRangeFold` with any per-range mutation does). -/
def RangeActionsEmptyNeutral {δ ρ : Type} (eng : EngineModel δ ρ) : Prop :=
  (∀ (d : δ) (cfg : PyDict), eng.applyParagraphFormat d [] cfg = (d, 0))
  ∧ (∀ (d : δ) (n : String), eng.applyStyle d [] n = (d, 0))
  ∧ (∀ (d : δ) (cfg : PyDict), eng.applyNumbering d [] cfg = (d, 0))

/-! ## Helper lemmas -/

/-- `compare` with its Bool tests restated as propositions. -/
theorem compareSnapshots_eq (pre post : Snapshot) (s : Safety) :
    compareSnapshots pre post s =
      (if s.require_same_paragraph_count = true
          ∧ pre.paragraph_count ≠ post.paragraph_count
       then [paragraphWarning pre post] else [])
      ++ (if s.require_same_bookmark_count = true
            ∧ pre.bookmark_count ≠ post.bookmark_count
          then [bookmarkWarning pre post] else [])
      ++ (if s.require_same_inline_shape_count = true
            ∧ pre.inline_shape_count ≠ post.inline_shape_count
          then [inlineShapeWarning pre post] else []) := by
  simp only [compareSnapshots, Bool.and_eq_true, bne_iff_ne, ne_eq]

/-- Membership in a conditional singleton list. -/
theorem mem_singleton_ite {c : Prop} [Decidable c] {x w : String}
    (hw : w ∈ (if c then [x] else ([] : List String))) : w = x := by
  split at hw
  · simpa using hw
  · simp at hw

/-! ## C4 -/

/-- C4: `compare(pre, post, safety)` never raises (it is a total function)
and returns exactly one warning per required invariant (paragraph count,
bookmark count, inline-shape count) whose counts differ, each warning
carrying the old and new count; with equal snapshots, or with no required
invariant differing, the warning list is empty. -/
theorem compare_warnings_per_invariant (pre post : Snapshot) (s : Safety) :
    ((compareSnapshots pre post s).length =
        (if s.require_same_paragraph_count = true
            ∧ pre.paragraph_count ≠ post.paragraph_count then 1 else 0)
        + (if s.require_same_bookmark_count = true
            ∧ pre.bookmark_count ≠ post.bookmark_count then 1 else 0)
        + (if s.require_same_inline_shape_count = true
            ∧ pre.inline_shape_count ≠ post.inline_shape_count then 1 else 0))
    ∧ (s.require_same_paragraph_count = true →
        pre.paragraph_count ≠ post.paragraph_count →
        paragraphWarning pre post ∈ compareSnapshots pre post s)
    ∧ (s.require_same_bookmark_count = true →
        pre.bookmark_count ≠ post.bookmark_count →
        bookmarkWarning pre post ∈ compareSnapshots pre post s)
    ∧ (s.require_same_inline_shape_count = true →
        pre.inline_shape_count ≠ post.inline_shape_count →
        inlineShapeWarning pre post ∈ compareSnapshots pre post s)
    ∧ (∀ w ∈ compareSnapshots pre post s,
        w = paragraphWarning pre post ∨ w = bookmarkWarning pre post
          ∨ w = inlineShapeWarning pre post)
    ∧ (pre = post → compareSnapshots pre post s = []) := by
  refine ⟨?_, ?_, ?_, ?_, ?_, ?_⟩
  · rw [compareSnapshots_eq]
    split_ifs <;> simp
  · intro h hne
    rw [compareSnapshots_eq]
    simp [h, hne]
  · intro h hne
    rw [compareSnapshots_eq]
    simp [h, hne]
  · intro h hne
    rw [compareSnapshots_eq]
    simp [h, hne]
  · intro w hw
    rw [compareSnapshots_eq] at hw
    simp only [List.mem_append] at hw
    rcases hw with (hw | hw) | hw
    · exact Or.inl (mem_singleton_ite hw)
    · exact Or.inr (Or.inl (mem_singleton_ite hw))
    · exact Or.inr (Or.inr (mem_singleton_ite hw))
  · rintro rfl
    rw [compareSnapshots_eq]
    simp

/-- Witness for C4: equal snapshots yield no warnings, and a bookmark-count
change under a bookmark-preserving policy yields its warning. -/
theorem compare_warnings_per_invariant_witness :
    compareSnapshots ⟨10, 2, 1, 5, 3, []⟩ ⟨10, 2, 1, 5, 3, []⟩ ⟨true, true, true, false⟩ = []
    ∧ bookmarkWarning ⟨10, 2, 1, 5, 3, []⟩ ⟨10, 3, 1, 5, 3, []⟩
        ∈ compareSnapshots ⟨10, 2, 1, 5, 3, []⟩ ⟨10, 3, 1, 5, 3, []⟩ ⟨true, true, true, false⟩ :=
  ⟨(compare_warnings_per_invariant _ _ _).2.2.2.2.2 rfl,
   (compare_warnings_per_invariant _ _ _).2.2.1 rfl (by decide)⟩

/-! ## C10 -/

/-- C10: the result of snapshot comparison depends only on the
paragraph-count, bookmark-count, and inline-shape-count fields of the two
snapshots; content-control count, table count, and headings never matter. -/
theorem compare_depends_only_on_three_counts (pre post pre2 post2 : Snapshot)
    (s : Safety)
    (h1 : pre.paragraph_count = pre2.paragraph_count)
    (h2 : pre.bookmark_count = pre2.bookmark_count)
    (h3 : pre.inline_shape_count = pre2.inline_shape_count)
    (h4 : post.paragraph_count = post2.paragraph_count)
    (h5 : post.bookmark_count = post2.bookmark_count)
    (h6 : post.inline_shape_count = post2.inline_shape_count) :
    compareSnapshots pre post s = compareSnapshots pre2 post2 s := by
  simp only [compareSnapshots, paragraphWarning, bookmarkWarning,
    inlineShapeWarning, h1, h2, h3, h4, h5, h6]

/-- Witness for C10: changing content-control count, table count and
headings between two snapshot pairs leaves the comparison unchanged. -/
theorem compare_depends_only_on_three_counts_witness :
    compareSnapshots ⟨10, 2, 1, 5, 3, []⟩ ⟨11, 2, 1, 5, 3, []⟩ ⟨true, true, true, false⟩
      = compareSnapshots ⟨10, 2, 1, 0, 0, []⟩ ⟨11, 2, 1, 99, 7, [("Heading 1", 2)]⟩
          ⟨true, true, true, false⟩ :=
  compare_depends_only_on_three_counts _ _ _ _ _ rfl rfl rfl rfl rfl rfl

/-! ## C2 -/

/-- C2: for the text-changing action types (`find_replace`,
`bookmark_text`, `content_control_text`), `allow_text_changes = False` with
no per-action `allow_text_change` key makes `_apply_action` raise the
text-change-disallowed error with the document untouched and no engine call
made; an action whose config sets the override to `true` bypasses the gate
and reaches the dispatch whatever the safety flag says. -/
theorem textChange_gate_blocks_and_override {δ ρ : Type}
    (eng : EngineModel δ ρ) (reg : List (String × RecipeFn δ)) (doc : δ)
    (ranges : List ρ) (safety : Safety) (a : RuleAction)
    (hgate : textChangingActions.contains a.typeName = true)
    (hover : a.allowTextChangeKey = none)
    (hsafe : safety.allow_text_changes = false) :
    applyAction eng reg doc ranges a safety
      = (doc, .error (.textChangeDisallowed a.typeName))
    ∧ ∀ (b : RuleAction) (safety2 : Safety), b.allowTextChangeKey = some true →
        applyAction eng reg doc ranges b safety2
          = dispatchAction eng reg doc ranges b := by
  constructor
  · have hc : (textChangingActions.contains a.typeName
        && !(a.allowTextChangeKey.getD safety.allow_text_changes)) = true := by
      rw [hgate, hover, hsafe]
      rfl
    simp only [applyAction, hc, if_true]
  · intro b safety2 hb
    have hc : (textChangingActions.contains b.typeName
        && !(b.allowTextChangeKey.getD safety2.allow_text_changes)) = false := by
      rw [hb]
      simp [Option.getD]
    simp only [applyAction, hc, Bool.false_eq_true, if_false]

/-- Witness for C2: a `find_replace` action without override under the
default safety policy is rejected; the same action with
`allow_text_change: true` reaches the engine dispatch. -/
theorem textChange_gate_blocks_and_override_witness :
    applyAction (fixtureEngine true) fixtureRegistry () []
        (.find_replace ⟨"a", "b", false, false, false, false, none⟩) fixtureSafety
      = ((), .error (.textChangeDisallowed "find_replace"))
    ∧ applyAction (fixtureEngine true) fixtureRegistry () []
        (.find_replace ⟨"a", "b", false, false, false, false, some true⟩) fixtureSafety
      = dispatchAction (fixtureEngine true) fixtureRegistry () []
          (.find_replace ⟨"a", "b", false, false, false, false, some true⟩) :=
  ⟨(textChange_gate_blocks_and_override (fixtureEngine true) fixtureRegistry ()
      [] fixtureSafety (.find_replace ⟨"a", "b", false, false, false, false, none⟩)
      rfl rfl rfl).1,
   (textChange_gate_blocks_and_override (fixtureEngine true) fixtureRegistry ()
      [] fixtureSafety (.find_replace ⟨"a", "b", false, false, false, false, none⟩)
      rfl rfl rfl).2 _ fixtureSafety rfl⟩

/-! ## C1 -/

/-- C1: once the document is successfully opened, every exit path of
`pipeline.run` attempts the document close and the engine shutdown (the
`finally` block), the run returns 1 whenever a later stage (snapshot, step
application, output-directory creation, save, audit) raises, and 0 when
none does. -/
theorem pipelineRun_close_shutdown_always (o : StageOutcome)
    (dry audit : Bool) (h : docOpened o = true) :
    (pipelineRun o dry audit).closeAttempted = true
    ∧ (pipelineRun o dry audit).shutdownAttempted = true
    ∧ (laterStageFails o dry audit = true → (pipelineRun o dry audit).code = 1)
    ∧ (laterStageFails o dry audit = false →
        (pipelineRun o dry audit).code = 0) := by
  rcases o with ⟨l, p, op, s1, ap, s2, mk, sv, au⟩
  revert h
  revert dry audit l p op s1 ap s2 mk sv au
  decide

/-- Witness for C1: a run whose step application raises still closes and
shuts down and exits 1. -/
theorem pipelineRun_close_shutdown_always_witness :
    (pipelineRun ⟨true, true, true, true, false, true, true, true, true⟩
        false true).closeAttempted = true
    ∧ (pipelineRun ⟨true, true, true, true, false, true, true, true, true⟩
        false true).shutdownAttempted = true
    ∧ (pipelineRun ⟨true, true, true, true, false, true, true, true, true⟩
        false true).code = 1 :=
  ⟨(pipelineRun_close_shutdown_always
      ⟨true, true, true, true, false, true, true, true, true⟩ false true rfl).1,
   (pipelineRun_close_shutdown_always
      ⟨true, true, true, true, false, true, true, true, true⟩ false true rfl).2.1,
   (pipelineRun_close_shutdown_always
      ⟨true, true, true, true, false, true, true, true, true⟩ false true
      rfl).2.2.1 rfl⟩

/-! ## C5 -/

/-- Counterexample for C5: with `enabled: true`, a recipe name absent from
the registry, and an engine that is not the `WordComEngine`, the dispatcher
raises the capability-mismatch error, not the unknown-recipe error the
claim promises for an unregistered name: the engine check precedes the
registry lookup. -/
theorem unknownRecipe_masked_by_engine_check :
    applyAction (fixtureEngine false) fixtureRegistry () []
        (.word_recipe ⟨some "does_not_exist", some true, []⟩) fixtureSafety
      = ((), .error (.recipeNeedsWordCom "does_not_exist"))
    ∧ dictGet fixtureRegistry "does_not_exist" = none
    ∧ ∀ avail : List String,
        ActionErr.recipeNeedsWordCom "does_not_exist"
          ≠ ActionErr.unknownRecipe "does_not_exist" avail :=
  ⟨rfl, rfl, fun _ h => ActionErr.noConfusion h⟩

/-- C5 (amended): a disabled `word_recipe` action returns 0 modifications
without invoking anything; when enabled and the engine is not the
`WordComEngine`, dispatch fails with the capability-mismatch error naming
the recipe (this check runs before the registry lookup); when enabled on
the `WordComEngine` with a name not in the registry, dispatch fails with
the unknown-recipe error naming the available recipe set. -/
theorem word_recipe_dispatch_errors {δ ρ : Type} (eng : EngineModel δ ρ)
    (reg : List (String × RecipeFn δ)) (doc : δ) (ranges : List ρ)
    (safety : Safety) (cfg : WordRecipeCfg) :
    (cfg.enabled = some false →
      applyAction eng reg doc ranges (.word_recipe cfg) safety = (doc, .ok 0))
    ∧ (cfg.enabled.getD true = true → eng.isWordCom = false →
      applyAction eng reg doc ranges (.word_recipe cfg) safety
        = (doc, .error (.recipeNeedsWordCom (renderOpt cfg.name))))
    ∧ (cfg.enabled.getD true = true → eng.isWordCom = true →
      cfg.name.bind (dictGet reg) = none →
      applyAction eng reg doc ranges (.word_recipe cfg) safety
        = (doc, .error (.unknownRecipe (renderOpt cfg.name)
            (reg.map Prod.fst)))) := by
  have hgate : (textChangingActions.contains
      (RuleAction.word_recipe cfg).typeName
      && !((RuleAction.word_recipe cfg).allowTextChangeKey.getD
            safety.allow_text_changes)) = false := by
    rfl
  refine ⟨?_, ?_, ?_⟩
  · intro he
    simp only [applyAction, hgate, Bool.false_eq_true, if_false,
      dispatchAction, he, Option.getD_some, Bool.not_false, if_true]
  · intro he hw
    simp only [applyAction, hgate, Bool.false_eq_true, if_false,
      dispatchAction, he, hw, Bool.not_true, Bool.not_false, if_false,
      if_true]
  · intro he hw hl
    simp only [applyAction, hgate, Bool.false_eq_true, if_false,
      dispatchAction, he, hw, hl, Bool.not_true, Bool.not_false, if_false,
      if_true]

/-- Witness for C5 (amended): the three branches at concrete inputs. -/
theorem word_recipe_dispatch_errors_witness :
    applyAction (fixtureEngine true) fixtureRegistry () []
        (.word_recipe ⟨some "lists_dot_to_emdash", some false, []⟩) fixtureSafety
      = ((), .ok 0)
    ∧ applyAction (fixtureEngine false) fixtureRegistry () []
        (.word_recipe ⟨some "remove_all_tabs", some true, []⟩) fixtureSafety
      = ((), .error (.recipeNeedsWordCom "remove_all_tabs"))
    ∧ applyAction (fixtureEngine true) fixtureRegistry () []
        (.word_recipe ⟨some "nope", some true, []⟩) fixtureSafety
      = ((), .error (.unknownRecipe "nope" ["lists_dot_to_emdash"])) :=
  ⟨(word_recipe_dispatch_errors (fixtureEngine true) fixtureRegistry () []
      fixtureSafety ⟨some "lists_dot_to_emdash", some false, []⟩).1 rfl,
   (word_recipe_dispatch_errors (fixtureEngine false) fixtureRegistry () []
      fixtureSafety ⟨some "remove_all_tabs", some true, []⟩).2.1 rfl rfl,
   (word_recipe_dispatch_errors (fixtureEngine true) fixtureRegistry () []
      fixtureSafety ⟨some "nope", some true, []⟩).2.2 rfl rfl rfl⟩

/-! ## C6 -/

/-- The text-changing action types are all recognized action types. -/
theorem textChanging_mem_recognized :
    ∀ x ∈ textChangingActions, x ∈ recognizedActionTypes := by
  intro x hx
  simp only [textChangingActions, List.mem_cons, List.not_mem_nil,
    or_false] at hx
  rcases hx with rfl | rfl | rfl <;> decide

/-- Every error surfaced by the step loop is a step-name-wrapped message. -/
theorem applyStepsLoop_error_shape {δ ρ : Type} (eng : EngineModel δ ρ)
    (reg : List (String × RecipeFn δ)) (safety : Safety) :
    ∀ (steps : List Step) (doc : δ) (acc : StepsSummary) (d : δ) (msg : String),
      applyStepsLoop eng reg safety doc steps acc = (d, .error msg) →
      ∃ s ∈ steps, ∃ rest, msg = wrapStepErr s.name rest := by
  intro steps
  induction steps with
  | nil =>
      intro doc acc d msg h
      exact absurd (congrArg Prod.snd h) (by simp [applyStepsLoop])
  | cons s rest ih =>
      intro doc acc d msg h
      rw [applyStepsLoop] at h
      rcases hss : applySingleStep eng reg doc s safety with ⟨d2, r⟩
      rw [hss] at h
      cases r with
      | ok m =>
          obtain ⟨s2, hs2, rest2, hmsg⟩ := ih _ _ _ _ h
          exact ⟨s2, List.mem_cons_of_mem _ hs2, rest2, hmsg⟩
      | error m0 =>
          have h2 := congrArg Prod.snd h
          simp only at h2
          injection h2 with h3
          exact ⟨s, List.mem_cons_self _ _, m0, h3.symm⟩

/-- C6: a selector dict carrying none of the recognized keys makes
`_resolve_selector` raise (never return an empty list); an action dict
whose single key is not a recognized action type makes `_apply_action`
raise the unknown-action error; and any error surfaced by `apply_steps`
carries the failing step's name. -/
theorem unknown_selector_action_errors :
    (∀ {δ ρ : Type} (eng : EngineModel δ ρ) (doc : δ) (sel : SelectorDict),
        sel.document = none → sel.by_style = none → sel.by_regex = none →
        sel.by_bookmark = none → sel.by_content_control = none →
        sel.by_table = none → sel.by_range = none →
        resolveSelector eng doc sel = .error ("Unknown selector type: "
          ++ "\x7b" ++ String.intercalate ", " sel.otherKeys ++ "\x7d"))
    ∧ (∀ {δ ρ : Type} (eng : EngineModel δ ρ)
        (reg : List (String × RecipeFn δ)) (doc : δ) (ranges : List ρ)
        (safety : Safety) (t : String), t ∉ recognizedActionTypes →
        applyAction eng reg doc ranges (.unknown t) safety
          = (doc, .error (.unknownAction t)))
    ∧ (∀ {δ ρ : Type} (eng : EngineModel δ ρ)
        (reg : List (String × RecipeFn δ)) (doc : δ) (steps : List Step)
        (safety : Safety) (d : δ) (msg : String),
        applySteps eng reg doc steps safety = (d, .error msg) →
        ∃ s ∈ steps, ∃ rest, msg = wrapStepErr s.name rest) := by
  refine ⟨?_, ?_, ?_⟩
  · intro δ ρ eng doc sel h1 h2 h3 h4 h5 h6 h7
    simp only [resolveSelector, h1, h2, h3, h4, h5, h6, h7]
    rfl
  · intro δ ρ eng reg doc ranges safety t hnot
    have hc : textChangingActions.contains (RuleAction.unknown t).typeName
        = false := by
      by_contra hcon
      rw [Bool.not_eq_false] at hcon
      have hmem : t ∈ textChangingActions := by simpa using hcon
      exact hnot (textChanging_mem_recognized t hmem)
    simp only [applyAction, hc, Bool.false_and, Bool.false_eq_true, if_false,
      dispatchAction]
  · intro δ ρ eng reg doc steps safety d msg h
    exact applyStepsLoop_error_shape eng reg safety steps doc ⟨[], 0⟩ d msg h

/-- Witness for C6: a typo selector errors, an unknown action type errors,
and the step error for a concrete failing step names the step. -/
theorem unknown_selector_action_errors_witness :
    resolveSelector (fixtureEngine true) () typoSel
      = .error "Unknown selector type: \x7bby_stile\x7d"
    ∧ applyAction (fixtureEngine true) fixtureRegistry () []
        (.unknown "frobnicate") fixtureSafety
      = ((), .error (.unknownAction "frobnicate"))
    ∧ ∃ s ∈ [stepUnknownAction], ∃ rest,
        stepUnknownActionMsg = wrapStepErr s.name rest :=
  ⟨(unknown_selector_action_errors.1 (fixtureEngine true) () typoSel
      rfl rfl rfl rfl rfl rfl rfl).trans rfl,
   unknown_selector_action_errors.2.1 (fixtureEngine true) fixtureRegistry ()
      [] fixtureSafety "frobnicate" (by decide),
   unknown_selector_action_errors.2.2 (fixtureEngine true) fixtureRegistry ()
      [stepUnknownAction] fixtureSafety () stepUnknownActionMsg rfl⟩

/-! ## C3 -/

/-- Counterexample for C3: a step whose recognized selector matches zero
ranges but whose single action is the document-level `headers_footers`
still applies that action and reports modification count 1, not 0:
document-level actions ignore the resolved range list. -/
theorem emptySelector_doc_action_counts :
    applySingleStep (fixtureEngine true) fixtureRegistry ()
        stepHeadersEmptySel fixtureSafety = ((), .ok 1)
    ∧ resolveSelector (fixtureEngine true) () stepHeadersEmptySel.select
        = .ok []
    ∧ (1 : Int) ≠ 0 :=
  ⟨rfl, rfl, by decide⟩

/-- An action not in the text-changing set goes straight to dispatch. -/
theorem applyAction_not_gated {δ ρ : Type} (eng : EngineModel δ ρ)
    (reg : List (String × RecipeFn δ)) (doc : δ) (ranges : List ρ)
    (safety : Safety) (a : RuleAction)
    (h : textChangingActions.contains a.typeName = false) :
    applyAction eng reg doc ranges a safety
      = dispatchAction eng reg doc ranges a := by
  simp only [applyAction, h, Bool.false_and, Bool.false_eq_true, if_false]

/-- Range-scoped actions over an empty range list leave the document
unchanged and add no modifications. -/
theorem applyActionsLoop_rangeScoped_empty {δ ρ : Type}
    (eng : EngineModel δ ρ) (reg : List (String × RecipeFn δ))
    (safety : Safety) (hn : RangeActionsEmptyNeutral eng) :
    ∀ (acts : List RuleAction) (doc : δ) (acc : Int),
      (∀ a ∈ acts, a.isRangeScoped = true) →
      applyActionsLoop eng reg [] safety doc acts acc = (doc, .ok acc) := by
  intro acts
  induction acts with
  | nil => intro doc acc _; rfl
  | cons a rest ih =>
      intro doc acc hall
      have ha := hall a (List.mem_cons_self _ _)
      have hrest := fun b hb => hall b (List.mem_cons_of_mem _ hb)
      rw [applyActionsLoop]
      cases a
      case paragraph_format cfg =>
        rw [applyAction_not_gated eng reg doc [] safety
          (.paragraph_format cfg) rfl]
        simp only [dispatchAction, hn.1 doc cfg]
        simpa using ih doc (acc + 0) hrest
      case style_apply n =>
        rw [applyAction_not_gated eng reg doc [] safety (.style_apply n) rfl]
        simp only [dispatchAction, hn.2.1 doc n]
        simpa using ih doc (acc + 0) hrest
      case numbering cfg =>
        rw [applyAction_not_gated eng reg doc [] safety (.numbering cfg) rfl]
        simp only [dispatchAction, hn.2.2 doc cfg]
        simpa using ih doc (acc + 0) hrest
      all_goals simp [RuleAction.isRangeScoped] at ha

/-- C3 (amended): when a step's recognized selector resolves to an empty
range list, every range-scoped action (`paragraph_format`, `style_apply`,
`numbering`) applies zero modifications and raises no error, so a step
consisting only of range-scoped actions reports modification count 0 and
leaves the document untouched (document-level actions, by contrast, still
execute and count — see the counterexample). -/
theorem emptySelector_rangeScoped_zero {δ ρ : Type} (eng : EngineModel δ ρ)
    (reg : List (String × RecipeFn δ)) (doc : δ) (step : Step)
    (safety : Safety) (hn : RangeActionsEmptyNeutral eng)
    (hsel : resolveSelector eng doc step.select = .ok [])
    (hacts : ∀ a ∈ step.actions, a.isRangeScoped = true) :
    applySingleStep eng reg doc step safety = (doc, .ok 0) := by
  simp only [applySingleStep, hsel]
  exact applyActionsLoop_rangeScoped_empty eng reg safety hn step.actions doc 0
    hacts

/-- Witness for C3 (amended): a step of three range-scoped actions under an
empty-matching bookmark selector yields modification count 0. -/
theorem emptySelector_rangeScoped_zero_witness :
    applySingleStep (fixtureEngine true) fixtureRegistry ()
      stepRangeScopedEmptySel fixtureSafety = ((), .ok 0) :=
  emptySelector_rangeScoped_zero (fixtureEngine true) fixtureRegistry ()
    stepRangeScopedEmptySel fixtureSafety
    ⟨fun _ _ => rfl, fun _ _ => rfl, fun _ _ => rfl⟩ rfl
    (by
      intro a ha
      simp only [stepRangeScopedEmptySel, List.mem_cons, List.not_mem_nil,
        or_false] at ha
      rcases ha with rfl | rfl | rfl <;> rfl)

/-! ## C7 -/

/-- The batch loop visits every path in order and keeps the last non-zero
exit code starting from `overall`. -/
theorem runBatchLoop_spec (runOf : String → Int) :
    ∀ (paths : List String) (overall : Int),
      (runBatchLoop runOf paths overall).2 = paths
      ∧ (runBatchLoop runOf paths overall).1 =
          (match (paths.map runOf).reverse.find? (fun c => c != 0) with
           | some c => c
           | none => overall) := by
  intro paths
  induction paths with
  | nil => intro overall; exact ⟨rfl, rfl⟩
  | cons p rest ih =>
      intro overall
      constructor
      · rw [runBatchLoop]
        exact congrArg (p :: ·) (ih _).1
      · rw [runBatchLoop]
        have h2 := (ih (if runOf p != 0 then runOf p else overall)).2
        rw [h2, List.map_cons, List.reverse_cons, List.find?_append]
        rcases hf : (rest.map runOf).reverse.find? (fun c => c != 0) with _ | c
        · simp only [hf, Option.or]
          rcases hp : (runOf p != 0) with _ | _
          · simp [List.find?, hp]
          · simp [List.find?, hp]
        · simp [hf, Option.or]

/-- C7: `run_batch` runs the single-file pipeline on every matched input
(no short-circuit on failure), its overall exit code is the last non-zero
per-file code and 0 when every file succeeded, and a batch that matches no
inputs returns exit code 1. -/
theorem runBatch_no_short_circuit (globFn : String → List String)
    (runOf : String → Int) (inputs : List String) :
    (expandInputs globFn inputs ≠ [] →
      (runBatch globFn runOf inputs).2 = expandInputs globFn inputs
      ∧ (runBatch globFn runOf inputs).1
          = lastNonZero ((expandInputs globFn inputs).map runOf)
      ∧ ((∀ x ∈ expandInputs globFn inputs, runOf x = 0) →
          (runBatch globFn runOf inputs).1 = 0))
    ∧ (expandInputs globFn inputs = [] →
        runBatch globFn runOf inputs = (1, [])) := by
  constructor
  · intro hne
    have hni : (expandInputs globFn inputs).isEmpty = false := by
      simpa [List.isEmpty_iff] using hne
    refine ⟨?_, ?_, ?_⟩
    · simp only [runBatch, hni, Bool.false_eq_true, if_false]
      exact (runBatchLoop_spec runOf _ 0).1
    · simp only [runBatch, hni, Bool.false_eq_true, if_false]
      rw [(runBatchLoop_spec runOf _ 0).2]
      rfl
    · intro hall
      simp only [runBatch, hni, Bool.false_eq_true, if_false]
      rw [(runBatchLoop_spec runOf _ 0).2]
      have hfn : ((expandInputs globFn inputs).map runOf).reverse.find?
          (fun c => c != 0) = none := by
        rw [List.find?_eq_none]
        intro x hx
        rw [List.mem_reverse] at hx
        obtain ⟨y, hy, rfl⟩ := List.mem_map.mp hx
        simp [hall y hy]
      rw [hfn]
  · intro he
    have hni : (expandInputs globFn inputs).isEmpty = true := by simp [he]
    simp only [runBatch, hni, if_true]

/-- Witness for C7: a two-file batch where the first file fails processes
both files and exits 1; a batch whose pattern matches nothing exits 1. -/
theorem runBatch_no_short_circuit_witness :
    (runBatch fixtureGlob fixtureRunOf ["*.docx"]).2 = ["a.docx", "b.docx"]
    ∧ (runBatch fixtureGlob fixtureRunOf ["*.docx"]).1 = 1
    ∧ runBatch fixtureGlob fixtureRunOf ["*.nomatch"] = (1, []) :=
  ⟨(((runBatch_no_short_circuit fixtureGlob fixtureRunOf ["*.docx"]).1
      (by decide)).1).trans (by decide),
   (((runBatch_no_short_circuit fixtureGlob fixtureRunOf ["*.docx"]).1
      (by decide)).2.1).trans (by decide),
   (runBatch_no_short_circuit fixtureGlob fixtureRunOf ["*.nomatch"]).2
      (by decide)⟩

/-! ## C8 -/

/-- C8: recipe registry discovery over a fixed module set is deterministic
(two runs build the same name-to-callable mapping), and a module whose
importing raises is skipped without aborting discovery or disturbing the
entries registered from the other modules. -/
theorem discovery_idempotent_fault_isolated {ν : Type}
    (pre post : List (PyModule ν)) (bad : PyModule ν)
    (hbad : bad.importResult = none) :
    discoverWordRecipes (pre ++ bad :: post)
      = discoverWordRecipes (pre ++ post)
    ∧ ∀ mods : List (PyModule ν),
        discoverWordRecipes mods = discoverWordRecipes mods := by
  refine ⟨?_, fun _ => rfl⟩
  simp only [discoverWordRecipes, List.foldl_append, List.foldl_cons]
  congr 1
  rw [hbad]
  split <;> rfl

/-- Witness for C8: a broken module between two working recipe modules
changes nothing, and the resulting registry is exactly the two working
entries. -/
theorem discovery_idempotent_fault_isolated_witness :
    discoverWordRecipes (ν := String)
        [⟨"lists_dot_to_emdash", some [⟨"lists_dot_to_emdash_py", some "fn1"⟩]⟩,
         ⟨"broken_recipe", none⟩,
         ⟨"remove_all_tabs", some [⟨"remove_all_tabs_py", some "fn2"⟩]⟩]
      = discoverWordRecipes
        [⟨"lists_dot_to_emdash", some [⟨"lists_dot_to_emdash_py", some "fn1"⟩]⟩,
         ⟨"remove_all_tabs", some [⟨"remove_all_tabs_py", some "fn2"⟩]⟩]
    ∧ discoverWordRecipes (ν := String)
        [⟨"lists_dot_to_emdash", some [⟨"lists_dot_to_emdash_py", some "fn1"⟩]⟩,
         ⟨"broken_recipe", none⟩,
         ⟨"remove_all_tabs", some [⟨"remove_all_tabs_py", some "fn2"⟩]⟩]
      = [("lists_dot_to_emdash", "fn1"), ("remove_all_tabs", "fn2")] :=
  ⟨(discovery_idempotent_fault_isolated
      [⟨"lists_dot_to_emdash", some [⟨"lists_dot_to_emdash_py", some "fn1"⟩]⟩]
      [⟨"remove_all_tabs", some [⟨"remove_all_tabs_py", some "fn2"⟩]⟩]
      ⟨"broken_recipe", none⟩ rfl).1,
   by decide⟩

/-! ## C9 -/

/-- C9: the dot-to-em-dash recipe on pages 1-4 turns the paragraph
`"1. First item"` into `"1—First item"` with `ok: true` and
`count_updated: 1`; run again on the converted document it changes nothing
and reports `count_updated: 0`. -/
theorem dotToEmdash_scenario_idempotent :
    (listsDotToEmdash ⟨[["1. First item".toList]]⟩ 1 4).1
      = ⟨[["1—First item".toList]]⟩
    ∧ (listsDotToEmdash ⟨[["1. First item".toList]]⟩ 1 4).2 = ⟨true, 1⟩
    ∧ (listsDotToEmdash ⟨[["1—First item".toList]]⟩ 1 4).1
      = ⟨[["1—First item".toList]]⟩
    ∧ (listsDotToEmdash ⟨[["1—First item".toList]]⟩ 1 4).2 = ⟨true, 0⟩ := by
  refine ⟨?_, ?_, ?_, ?_⟩ <;> decide
